import Mathlib

/-!
Verification of the RTT estimation core (`src/quiche/src/recovery/rtt.rs`).

Modelling conventions:

* Rust `std::time::Duration` is modelled as a `Nat` counting nanoseconds.
  On `Duration`, Rust's `+` and `* k` are exact on the total nanosecond
  count (panicking on overflow past `Duration::MAX`), and `/ k` is floor
  division of the total nanosecond count, so the arithmetic below is exact
  wherever the Rust arithmetic does not panic.  The panic boundary itself is
  modelled separately by `RttStats.update_rtt_checked`, with
  `DMAX = 2^64 * 10^9 - 1` the nanosecond count of `Duration::MAX`.
* `Instant` values are modelled as `Nat` timestamps (nanoseconds from an
  arbitrary origin); nothing below depends on the unit.
* The `as u64` cast applied to the `u128` absolute difference in the
  `rttvar` update is modelled explicitly as `% 2 ^ 64`.
* `f64` cannot be modelled faithfully; the `time_thresh` argument of
  `loss_delay` is modelled as a rational, with `Duration::mul_f64`
  idealised as exact rational multiplication rounded to the nearest
  nanosecond (`mul_f64` below).
-/

/-- Nanoseconds per second, the unit conversion used by `Duration`. -/
def NANOS_PER_SEC : Nat := 1000000000

/-- `RTT_WINDOW`: the fixed trailing window of the windowed minimum,
`Duration::from_secs(300)`, in nanoseconds. -/
def RTT_WINDOW : Nat := 300 * NANOS_PER_SEC

/-- The nanosecond count of `Duration::MAX`
(`u64::MAX` seconds plus `999_999_999` nanoseconds). -/
def DMAX : Nat := 2 ^ 64 * NANOS_PER_SEC - 1

/-- Modelled from the spec: the fixed minimum granularity constant
`crate::recovery::GRANULARITY` is not part of the sources; the spec only
says it is "a fixed minimum granularity constant (a configured lower bound
below which timers are not meaningful, e.g. platform timer resolution)".
We fix it at one millisecond; no theorem below depends on the value. -/
def GRANULARITY : Nat := 1000000

/-- `u128::abs_diff`: absolute difference on `Nat`. -/
def abs_diff (a b : Nat) : Nat := if b ≤ a then a - b else b - a

/-- Modelled from the spec: the windowed-minimum tracker
(`crate::minmax::Minmax`, whose source is not included).  The spec describes
a structure holding `(value, observed_at)` candidate samples whose reported
minimum is "the minimum value among all observations whose age
(`now - observed_at`) is ≤ `window`, and `value` itself".  We model the
tracker extensionally as the retained list of `(observed_at, value)`
samples, newest first. -/
structure Minmax where
  samples : List (Nat × Nat)
deriving DecidableEq, Repr

/-- Modelled from the spec: construction seeds the tracker with the initial
estimate (`Minmax::new(initial_rtt)`); the construction timestamp is
immaterial (the first real sample goes through `reset`) and is taken as 0. -/
def Minmax.new (v : Nat) : Minmax := ⟨[(0, v)]⟩

/-- Modelled from the spec: `reset(now, value)` discards all history and
seeds the tracker with the single sample `value` observed at `now`. -/
def Minmax.reset (_m : Minmax) (now v : Nat) : Minmax := ⟨[(now, v)]⟩

/-- Modelled from the spec: `running_min(window, now, value)` feeds a new
observation and expires every retained sample whose age exceeds the window;
a non-monotonic `now` is still valid (`Nat` subtraction truncates at 0). -/
def Minmax.running_min (m : Minmax) (window now v : Nat) : Minmax :=
  ⟨(now, v) :: m.samples.filter (fun p => now - p.1 ≤ window)⟩

/-- Modelled from the spec: dereferencing the tracker yields the minimum of
the retained samples (defined at all times after construction). -/
def Minmax.value (m : Minmax) : Nat :=
  match m.samples with
  | [] => 0
  | (_, v) :: rest => rest.foldl (fun a p => min a p.2) v

/-- The estimator state `RttStats`; all duration fields are in nanoseconds. -/
structure RttStats where
  latest_rtt : Nat
  max_rtt : Nat
  smoothed_rtt : Nat
  rttvar : Nat
  min_rtt : Minmax
  max_ack_delay : Nat
  has_first_rtt_sample : Bool
deriving DecidableEq, Repr

/-- `RttStats::new(initial_rtt, max_ack_delay)`. -/
def RttStats.new (initial_rtt max_ack_delay : Nat) : RttStats :=
  { latest_rtt := 0
    min_rtt := Minmax.new initial_rtt
    smoothed_rtt := initial_rtt
    max_rtt := initial_rtt
    rttvar := initial_rtt / 2
    has_first_rtt_sample := false
    max_ack_delay := max_ack_delay }

/-- `RttStats::update_rtt(latest_rtt, ack_delay, now, handshake_confirmed)`.
Line-by-line image of the source; `s.rttvar * 3 / 4` is `(rttvar*3)/4` with
floor division (exactly Rust's `Duration` scalar arithmetic), and
`% 2 ^ 64` is the source's `as u64` cast of the `u128` absolute
difference. -/
def RttStats.update_rtt (s : RttStats) (latest_rtt ack_delay now : Nat)
    (handshake_confirmed : Bool) : RttStats :=
  let s := { s with latest_rtt := latest_rtt }
  if !s.has_first_rtt_sample then
    { s with
      min_rtt := s.min_rtt.reset now latest_rtt
      smoothed_rtt := latest_rtt
      max_rtt := latest_rtt
      rttvar := latest_rtt / 2
      has_first_rtt_sample := true }
  else
    let min_rtt := s.min_rtt.running_min RTT_WINDOW now latest_rtt
    let max_rtt := max s.max_rtt latest_rtt
    let ack_delay :=
      if handshake_confirmed then min ack_delay s.max_ack_delay else ack_delay
    let adjusted_rtt :=
      if min_rtt.value + ack_delay ≤ latest_rtt then latest_rtt - ack_delay
      else latest_rtt
    let rttvar :=
      s.rttvar * 3 / 4 + abs_diff s.smoothed_rtt adjusted_rtt % 2 ^ 64 / 4
    let smoothed_rtt := s.smoothed_rtt * 7 / 8 + adjusted_rtt / 8
    { s with
      min_rtt := min_rtt
      max_rtt := max_rtt
      rttvar := rttvar
      smoothed_rtt := smoothed_rtt }

/-- `RttStats::rtt()`. -/
def RttStats.rtt (s : RttStats) : Nat := s.smoothed_rtt

/-- `RttStats::min_rtt()` (named `min_rtt_opt` here because the field of the
same name takes the Rust method's name). -/
def RttStats.min_rtt_opt (s : RttStats) : Option Nat :=
  if s.has_first_rtt_sample then some s.min_rtt.value else none

/-- `RttStats::max_rtt()` (named `max_rtt_opt` here because the field of the
same name takes the Rust method's name). -/
def RttStats.max_rtt_opt (s : RttStats) : Option Nat :=
  if s.has_first_rtt_sample then some s.max_rtt else none

/-- `Duration::mul_f64`, idealised: multiply the nanosecond count by the
rational `q` exactly and round to the nearest nanosecond (the source's
`f64` round trip through seconds rounds the product to the nearest
representable nanosecond; its floating-point rounding error is not
representable in this embedding). -/
def mul_f64 (d : Nat) (q : ℚ) : Nat := (⌊(d : ℚ) * q + 1 / 2⌋).toNat

/-- `RttStats::loss_delay(time_thresh)`. -/
def RttStats.loss_delay (s : RttStats) (time_thresh : ℚ) : Nat :=
  max (mul_f64 (max s.latest_rtt s.smoothed_rtt) time_thresh) GRANULARITY

/-- One acknowledgment sample, the argument tuple of one `update_rtt` call. -/
structure AckSample where
  latest : Nat
  ack : Nat
  now : Nat
  hc : Bool
deriving DecidableEq, Repr

/-- Apply a sequence of `update_rtt` calls in order. -/
def RttStats.run (s : RttStats) (cs : List AckSample) : RttStats :=
  cs.foldl (fun t c => t.update_rtt c.latest c.ack c.now c.hc) s

/-- Overflow-aware image of `update_rtt`: `none` exactly where the Rust code
panics on `Duration` overflow (each `Duration` `+` and `* k` is checked
against `Duration::MAX`, i.e. `DMAX` nanoseconds, in source evaluation
order).  The subtraction `latest_rtt - ack_delay` is guarded by the
plausibility test and cannot underflow; divisions and
`Duration::from_nanos` of a `u64` cannot fail. -/
def RttStats.update_rtt_checked (s : RttStats) (latest_rtt ack_delay now : Nat)
    (handshake_confirmed : Bool) : Option RttStats :=
  let s := { s with latest_rtt := latest_rtt }
  if !s.has_first_rtt_sample then
    some { s with
      min_rtt := s.min_rtt.reset now latest_rtt
      smoothed_rtt := latest_rtt
      max_rtt := latest_rtt
      rttvar := latest_rtt / 2
      has_first_rtt_sample := true }
  else
    let min_rtt := s.min_rtt.running_min RTT_WINDOW now latest_rtt
    let max_rtt := max s.max_rtt latest_rtt
    let ack_delay :=
      if handshake_confirmed then min ack_delay s.max_ack_delay else ack_delay
    if DMAX < min_rtt.value + ack_delay then none else
    let adjusted_rtt :=
      if min_rtt.value + ack_delay ≤ latest_rtt then latest_rtt - ack_delay
      else latest_rtt
    if DMAX < s.rttvar * 3 then none else
    if DMAX < s.rttvar * 3 / 4 + abs_diff s.smoothed_rtt adjusted_rtt % 2 ^ 64 / 4
      then none else
    let rttvar :=
      s.rttvar * 3 / 4 + abs_diff s.smoothed_rtt adjusted_rtt % 2 ^ 64 / 4
    if DMAX < s.smoothed_rtt * 7 then none else
    if DMAX < s.smoothed_rtt * 7 / 8 + adjusted_rtt / 8 then none else
    some { s with
      min_rtt := min_rtt
      max_rtt := max_rtt
      rttvar := rttvar
      smoothed_rtt := s.smoothed_rtt * 7 / 8 + adjusted_rtt / 8 }

/-- The ack delay actually used by the steady-state path (source lines
95–98): clamped by `max_ack_delay` exactly when the handshake is
confirmed. -/
def RttStats.effective_ack_delay (s : RttStats) (ack_delay : Nat)
    (handshake_confirmed : Bool) : Nat :=
  if handshake_confirmed then min ack_delay s.max_ack_delay else ack_delay

/-- The adjusted RTT computed by the steady-state path (source lines
100–104): the ack delay is subtracted only when the result would stay at or
above the current windowed minimum, which is read from the tracker *after*
it has absorbed `latest_rtt`. -/
def RttStats.adjusted_rtt (s : RttStats) (latest_rtt ack_delay now : Nat)
    (handshake_confirmed : Bool) : Nat :=
  let m := (s.min_rtt.running_min RTT_WINDOW now latest_rtt).value
  let ack := s.effective_ack_delay ack_delay handshake_confirmed
  if m + ack ≤ latest_rtt then latest_rtt - ack else latest_rtt

/-- A concrete steady-state estimator (smoothed 120ms, rttvar 60ms, windowed
minimum 120ms) used to instantiate the steady-state theorems. -/
def steady120 : RttStats :=
  { latest_rtt := 120000000, max_rtt := 120000000, smoothed_rtt := 120000000,
    rttvar := 60000000, min_rtt := ⟨[(0, 120000000)]⟩,
    max_ack_delay := 25000000, has_first_rtt_sample := true }

lemma foldl_min_le_init (l : List (Nat × Nat)) (v : Nat) :
    l.foldl (fun a p => min a p.2) v ≤ v := by
  induction l generalizing v with
  | nil => exact le_rfl
  | cons p t ih => exact le_trans (ih (min v p.2)) (min_le_left _ _)

/-- The windowed minimum reported right after feeding `v` is at most `v`. -/
lemma value_running_min_le (m : Minmax) (w n v : Nat) :
    (m.running_min w n v).value ≤ v := by
  show (m.samples.filter (fun p => n - p.1 ≤ w)).foldl
      (fun a p => min a p.2) v ≤ v
  exact foldl_min_le_init _ _

/-- The adjusted RTT never exceeds the raw sample. -/
lemma adjusted_rtt_le (s : RttStats) (l a n : Nat) (hc : Bool) :
    s.adjusted_rtt l a n hc ≤ l := by
  unfold RttStats.adjusted_rtt
  dsimp only
  split
  · exact Nat.sub_le _ _
  · exact le_rfl

/-- Every `update_rtt` call leaves `has_first_rtt_sample` set. -/
lemma update_rtt_has_first (s : RttStats) (l a n : Nat) (hc : Bool) :
    (s.update_rtt l a n hc).has_first_rtt_sample = true := by
  cases h : s.has_first_rtt_sample <;> simp [RttStats.update_rtt, h]

lemma run_cons (s : RttStats) (c : AckSample) (cs : List AckSample) :
    s.run (c :: cs) = (s.update_rtt c.latest c.ack c.now c.hc).run cs := rfl

lemma run_append (s : RttStats) (xs ys : List AckSample) :
    s.run (xs ++ ys) = (s.run xs).run ys :=
  List.foldl_append _ _ _ _

/-- `has_first_rtt_sample` is stable under any run of further calls. -/
lemma run_has_first (s : RttStats) (cs : List AckSample)
    (h : s.has_first_rtt_sample = true) :
    (s.run cs).has_first_rtt_sample = true := by
  induction cs generalizing s with
  | nil => exact h
  | cons c t ih =>
      rw [run_cons]
      exact ih _ (update_rtt_has_first _ _ _ _ _)

/-- One steady-state step never decreases `max_rtt`. -/
lemma max_rtt_step (s : RttStats) (l a n : Nat) (hc : Bool)
    (h : s.has_first_rtt_sample = true) :
    s.max_rtt ≤ (s.update_rtt l a n hc).max_rtt := by
  simp [RttStats.update_rtt, h]

/-- C9: `new(initial_rtt, max_ack_delay)` seeds `smoothed_rtt = max_rtt =
initial_rtt`, `rttvar = initial_rtt / 2`, the windowed-minimum tracker with
`initial_rtt`, `has_first_rtt_sample = false`, and `latest_rtt = 0`. -/
theorem c9_new_initial_state (initial_rtt max_ack_delay : Nat) :
    (RttStats.new initial_rtt max_ack_delay).smoothed_rtt = initial_rtt ∧
    (RttStats.new initial_rtt max_ack_delay).max_rtt = initial_rtt ∧
    (RttStats.new initial_rtt max_ack_delay).rttvar = initial_rtt / 2 ∧
    (RttStats.new initial_rtt max_ack_delay).min_rtt =
      Minmax.new initial_rtt ∧
    (RttStats.new initial_rtt max_ack_delay).min_rtt.value = initial_rtt ∧
    (RttStats.new initial_rtt max_ack_delay).has_first_rtt_sample = false ∧
    (RttStats.new initial_rtt max_ack_delay).latest_rtt = 0 :=
  ⟨rfl, rfl, rfl, rfl, rfl, rfl, rfl⟩

/-- C2: on the bootstrap path (`has_first_rtt_sample = false`) `update_rtt`
records the sample, resets the windowed-minimum tracker to `(now,
latest_rtt)`, sets `smoothed_rtt = max_rtt = latest_rtt` and `rttvar =
latest_rtt / 2`, marks the first sample seen, and does no smoothing
arithmetic; from `initial_rtt` 100ms, a first sample of 120ms with 5ms ack
delay yields smoothed 120ms, rttvar 60ms, min and max `some` 120ms. -/
theorem c2_bootstrap_path (s : RttStats) (l a n : Nat) (hc : Bool)
    (h : s.has_first_rtt_sample = false) :
    ((s.update_rtt l a n hc).latest_rtt = l ∧
      (s.update_rtt l a n hc).min_rtt = s.min_rtt.reset n l ∧
      (s.update_rtt l a n hc).smoothed_rtt = l ∧
      (s.update_rtt l a n hc).max_rtt = l ∧
      (s.update_rtt l a n hc).rttvar = l / 2 ∧
      (s.update_rtt l a n hc).has_first_rtt_sample = true ∧
      (s.update_rtt l a n hc).max_ack_delay = s.max_ack_delay) ∧
    (((RttStats.new 100000000 25000000).update_rtt 120000000 5000000 0
        false).smoothed_rtt = 120000000 ∧
      ((RttStats.new 100000000 25000000).update_rtt 120000000 5000000 0
        false).rttvar = 60000000 ∧
      ((RttStats.new 100000000 25000000).update_rtt 120000000 5000000 0
        false).min_rtt_opt = some 120000000 ∧
      ((RttStats.new 100000000 25000000).update_rtt 120000000 5000000 0
        false).max_rtt_opt = some 120000000) := by
  refine ⟨?_, by decide⟩
  simp [RttStats.update_rtt, Minmax.reset, h]

/-- C2 witness: the bootstrap theorem applied to a fresh estimator. -/
theorem c2_witness :
    (RttStats.new 100000000 25000000).has_first_rtt_sample = false ∧
    ((RttStats.new 100000000 25000000).update_rtt 120000000 5000000 0
      false).smoothed_rtt = 120000000 :=
  ⟨rfl, (c2_bootstrap_path (RttStats.new 100000000 25000000) 120000000
      5000000 0 false rfl).1.2.2.1⟩

/-- C10: the bootstrap step does not depend on `ack_delay` or
`handshake_confirmed`: two first-sample calls agreeing on `latest_rtt` and
`now` produce identical estimator states. -/
theorem c10_bootstrap_noninterference (s : RttStats) (l n a a' : Nat)
    (hc hc' : Bool) (h : s.has_first_rtt_sample = false) :
    s.update_rtt l a n hc = s.update_rtt l a' n hc' := by
  simp [RttStats.update_rtt, h]

/-- C10 witness: noninterference at a concrete first sample with different
ack delays and handshake flags. -/
theorem c10_witness :
    (RttStats.new 100000000 25000000).has_first_rtt_sample = false ∧
    (RttStats.new 100000000 25000000).update_rtt 120000000 5000000 7 false =
      (RttStats.new 100000000 25000000).update_rtt 120000000 999999999 7
        true :=
  ⟨rfl, c10_bootstrap_noninterference (RttStats.new 100000000 25000000)
      120000000 7 5000000 999999999 false true rfl⟩

/-- C1 (amended): in the steady state the new `rttvar` is
`rttvar*3/4 + ((|smoothed_rtt - adjusted_rtt| truncated to 64 bits) / 4)` —
the source casts the `u128` nanosecond difference to `u64` before dividing —
and the new `smoothed_rtt` is `smoothed_rtt*7/8 + adjusted_rtt/8`, the
`rttvar` update reading the pre-update `smoothed_rtt`; from smoothed 120ms,
rttvar 60ms, windowed minimum 120ms, a 100ms sample with zero ack delay
yields rttvar 50ms and smoothed 117.5ms. -/
theorem c1_steady_ewma_update (s : RttStats) (l a n : Nat) (hc : Bool)
    (h : s.has_first_rtt_sample = true) :
    ((s.update_rtt l a n hc).rttvar =
        s.rttvar * 3 / 4 +
          abs_diff s.smoothed_rtt (s.adjusted_rtt l a n hc) % 2 ^ 64 / 4 ∧
      (s.update_rtt l a n hc).smoothed_rtt =
        s.smoothed_rtt * 7 / 8 + s.adjusted_rtt l a n hc / 8) ∧
    ((steady120.update_rtt 100000000 0 1000000000 true).rttvar =
        50000000 ∧
      (steady120.update_rtt 100000000 0 1000000000 true).smoothed_rtt =
        117500000) := by
  refine ⟨⟨?_, ?_⟩, by decide⟩ <;>
    simp [RttStats.update_rtt, RttStats.adjusted_rtt,
      RttStats.effective_ack_delay, h]

/-- C1 witness: the steady-state EWMA theorem applied to `steady120`. -/
theorem c1_witness :
    steady120.has_first_rtt_sample = true ∧
    (steady120.update_rtt 100000000 0 1000000000 true).rttvar =
      steady120.rttvar * 3 / 4 +
        abs_diff steady120.smoothed_rtt
          (steady120.adjusted_rtt 100000000 0 1000000000 true) % 2 ^ 64 /
          4 :=
  ⟨rfl,
    (c1_steady_ewma_update steady120 100000000 0 1000000000 true rfl).1.1⟩

/-- C1 fails as stated: with pre-update `smoothed_rtt = 2^70` ns, adjusted
RTT 0 and `rttvar = 0`, the claimed formula gives `2^70 / 4 = 2^68`, but the
source casts the `u128` absolute difference to `u64` first, so
`2^70 mod 2^64 = 0` and the new `rttvar` is 0. -/
theorem c1_counterexample :
    ¬ ((RttStats.update_rtt
          { latest_rtt := 0, max_rtt := 0, smoothed_rtt := 2 ^ 70,
            rttvar := 0, min_rtt := ⟨[(0, 0)]⟩, max_ack_delay := 0,
            has_first_rtt_sample := true } 0 0 0 false).rttvar =
        0 * 3 / 4 +
          abs_diff (2 ^ 70)
              (RttStats.adjusted_rtt
                { latest_rtt := 0, max_rtt := 0, smoothed_rtt := 2 ^ 70,
                  rttvar := 0, min_rtt := ⟨[(0, 0)]⟩, max_ack_delay := 0,
                  has_first_rtt_sample := true } 0 0 0 false) /
            4) := by decide

/-- C3: in the steady state the effective ack delay is
`min(ack_delay, max_ack_delay)` exactly when the handshake is confirmed and
the raw `ack_delay` otherwise; the adjusted RTT is `latest_rtt -
effective_ack_delay` when `latest_rtt ≥ min_rtt + effective_ack_delay` and
`latest_rtt` unchanged otherwise, and it is this adjusted value that feeds
both EWMA updates; with windowed minimum 50ms, ack delay 40ms and sample
60ms the adjusted RTT is 60ms. -/
theorem c3_ack_delay_clamp_and_plausibility (s : RttStats) (l a n : Nat)
    (hc : Bool) (h : s.has_first_rtt_sample = true) :
    (s.effective_ack_delay a true = min a s.max_ack_delay ∧
      s.effective_ack_delay a false = a) ∧
    ((s.min_rtt.running_min RTT_WINDOW n l).value +
          s.effective_ack_delay a hc ≤ l →
        s.adjusted_rtt l a n hc = l - s.effective_ack_delay a hc) ∧
    (l < (s.min_rtt.running_min RTT_WINDOW n l).value +
          s.effective_ack_delay a hc →
        s.adjusted_rtt l a n hc = l) ∧
    (s.update_rtt l a n hc).smoothed_rtt =
      s.smoothed_rtt * 7 / 8 + s.adjusted_rtt l a n hc / 8 ∧
    (s.update_rtt l a n hc).rttvar =
      s.rttvar * 3 / 4 +
        abs_diff s.smoothed_rtt (s.adjusted_rtt l a n hc) % 2 ^ 64 / 4 ∧
    RttStats.adjusted_rtt
        { latest_rtt := 60000000, max_rtt := 60000000,
          smoothed_rtt := 60000000, rttvar := 0,
          min_rtt := ⟨[(0, 50000000)]⟩, max_ack_delay := 25000000,
          has_first_rtt_sample := true } 60000000 40000000 0 false =
      60000000 := by
  refine ⟨⟨rfl, rfl⟩, fun hle => ?_, fun hlt => ?_, ?_, ?_, by decide⟩
  · unfold RttStats.adjusted_rtt
    dsimp only
    rw [if_pos hle]
  · unfold RttStats.adjusted_rtt
    dsimp only
    rw [if_neg (not_le.mpr hlt)]
  · simp [RttStats.update_rtt, RttStats.adjusted_rtt,
      RttStats.effective_ack_delay, h]
  · simp [RttStats.update_rtt, RttStats.adjusted_rtt,
      RttStats.effective_ack_delay, h]

/-- C3 witness: the clamp-and-plausibility theorem applied to `steady120`
with a 40ms ack delay. -/
theorem c3_witness :
    steady120.has_first_rtt_sample = true ∧
    (steady120.update_rtt 100000000 40000000 1000000000 true).smoothed_rtt =
      steady120.smoothed_rtt * 7 / 8 +
        steady120.adjusted_rtt 100000000 40000000 1000000000 true / 8 :=
  ⟨rfl, (c3_ack_delay_clamp_and_plausibility steady120 100000000 40000000
      1000000000 true rfl).2.2.2.1⟩

/-- C4: every steady-state call feeds the windowed-minimum tracker the raw
`latest_rtt` over the fixed 300-second window; the resulting tracker state is
independent of the reported ack delay and of the handshake flag. -/
theorem c4_min_tracker_raw_sample (s : RttStats) (l a a' n : Nat)
    (hc hc' : Bool) (h : s.has_first_rtt_sample = true) :
    (s.update_rtt l a n hc).min_rtt =
      s.min_rtt.running_min RTT_WINDOW n l ∧
    (s.update_rtt l a n hc).min_rtt = (s.update_rtt l a' n hc').min_rtt ∧
    RTT_WINDOW = 300 * 1000000000 := by
  refine ⟨?_, ?_, rfl⟩ <;> simp [RttStats.update_rtt, h]

/-- C4 witness: the raw-sample tracker theorem applied to `steady120` with
two different ack delays and handshake flags. -/
theorem c4_witness :
    steady120.has_first_rtt_sample = true ∧
    (steady120.update_rtt 100000000 5000000 1000000000 true).min_rtt =
      steady120.min_rtt.running_min RTT_WINDOW 1000000000 100000000 :=
  ⟨rfl, (c4_min_tracker_raw_sample steady120 100000000 5000000 9000000
      1000000000 true false rfl).1⟩

/-- C6: `min_rtt()` and `max_rtt()` are `none` on a fresh estimator, `some`
after any nonempty sequence of `update_rtt` calls, and their optionality is
exactly `has_first_rtt_sample`. -/
theorem c6_accessor_optionality (init mad : Nat) (c : AckSample)
    (cs : List AckSample) :
    (RttStats.new init mad).min_rtt_opt = none ∧
    (RttStats.new init mad).max_rtt_opt = none ∧
    ((RttStats.new init mad).run (c :: cs)).min_rtt_opt.isSome = true ∧
    ((RttStats.new init mad).run (c :: cs)).max_rtt_opt.isSome = true ∧
    (∀ s : RttStats,
      s.min_rtt_opt.isSome = s.has_first_rtt_sample ∧
        s.max_rtt_opt.isSome = s.has_first_rtt_sample) := by
  have hrun :
      ((RttStats.new init mad).run (c :: cs)).has_first_rtt_sample = true := by
    rw [run_cons]
    exact run_has_first _ _ (update_rtt_has_first _ _ _ _ _)
  refine ⟨rfl, rfl, ?_, ?_, ?_⟩
  · simp [RttStats.min_rtt_opt, hrun]
  · simp [RttStats.max_rtt_opt, hrun]
  · intro s
    cases hs : s.has_first_rtt_sample <;>
      simp [RttStats.min_rtt_opt, RttStats.max_rtt_opt, hs]

/-- C7: after every `update_rtt` call `max_rtt ≥ latest_rtt` holds, and
along any sequence of calls the post-call `max_rtt` values are monotonically
non-decreasing (appending a further call never decreases `max_rtt`). -/
theorem c7_max_rtt_monotone (init mad : Nat) (c c' : AckSample)
    (cs : List AckSample) :
    (∀ (s : RttStats) (l a n : Nat) (hc : Bool),
        (s.update_rtt l a n hc).latest_rtt ≤
          (s.update_rtt l a n hc).max_rtt) ∧
    ((RttStats.new init mad).run (c :: cs)).max_rtt ≤
      ((RttStats.new init mad).run (c :: cs ++ [c'])).max_rtt := by
  constructor
  · intro s l a n hc
    cases h : s.has_first_rtt_sample <;> simp [RttStats.update_rtt, h]
  · have hfirst :
        ((RttStats.new init mad).run (c :: cs)).has_first_rtt_sample =
          true := by
      rw [run_cons]
      exact run_has_first _ _ (update_rtt_has_first _ _ _ _ _)
    rw [run_append]
    exact max_rtt_step _ c'.latest c'.ack c'.now c'.hc hfirst

/-- C5: `loss_delay(time_thresh)` is `max(latest_rtt, smoothed_rtt)` scaled
by the threshold and floored at the granularity constant; it is always at
least the granularity floor, and for a fixed nonnegative threshold it is
non-decreasing in `max(latest_rtt, smoothed_rtt)`. -/
theorem c5_loss_delay_floor_monotone (s t : RttStats) (q : ℚ) (hq : 0 ≤ q)
    (hle :
      max s.latest_rtt s.smoothed_rtt ≤ max t.latest_rtt t.smoothed_rtt) :
    s.loss_delay q =
      max (mul_f64 (max s.latest_rtt s.smoothed_rtt) q) GRANULARITY ∧
    GRANULARITY ≤ s.loss_delay q ∧
    s.loss_delay q ≤ t.loss_delay q := by
  refine ⟨rfl, le_max_right _ _, ?_⟩
  have hmul : mul_f64 (max s.latest_rtt s.smoothed_rtt) q ≤
      mul_f64 (max t.latest_rtt t.smoothed_rtt) q := by
    unfold mul_f64
    refine Int.toNat_le_toNat (Int.floor_le_floor ?_)
    have hcast : ((max s.latest_rtt s.smoothed_rtt : Nat) : ℚ) ≤
        ((max t.latest_rtt t.smoothed_rtt : Nat) : ℚ) := by
      exact_mod_cast hle
    have := mul_le_mul_of_nonneg_right hcast hq
    linarith
  exact max_le_max hmul le_rfl

/-- C5 witness: the loss-delay theorem applied at threshold 9/8 to
`steady120` and to a fresh estimator with a larger smoothed RTT. -/
theorem c5_witness :
    (0 : ℚ) ≤ 9 / 8 ∧
    max steady120.latest_rtt steady120.smoothed_rtt ≤
      max (RttStats.new 200000000 25000000).latest_rtt
        (RttStats.new 200000000 25000000).smoothed_rtt ∧
    GRANULARITY ≤ steady120.loss_delay (9 / 8) :=
  ⟨by norm_num, by decide,
    (c5_loss_delay_floor_monotone steady120 (RttStats.new 200000000
        25000000) (9 / 8) (by norm_num) (by decide)).2.1⟩

/-- None of the overflow guards of the steady-state path can fire when the
participating durations are at most `DMAX / 7`. -/
lemma checked_guards (rv sm mv eff adj d : Nat) (hrv : rv ≤ DMAX / 7)
    (hsm : sm ≤ DMAX / 7) (hmv : mv ≤ DMAX / 7) (heff : eff ≤ DMAX / 7)
    (hadj : adj ≤ DMAX / 7) :
    ¬ DMAX < mv + eff ∧ ¬ DMAX < rv * 3 ∧
      ¬ DMAX < rv * 3 / 4 + d % 2 ^ 64 / 4 ∧
      ¬ DMAX < sm * 7 ∧ ¬ DMAX < sm * 7 / 8 + adj / 8 := by
  have hD : DMAX = 18446744073709551615999999999 := by
    norm_num [DMAX, NANOS_PER_SEC]
  have hp : (2 : Nat) ^ 64 = 18446744073709551616 := by norm_num
  rw [hD] at hrv hsm hmv heff hadj
  rw [hD, hp]
  omega

/-- C8 (amended): `update_rtt` performs no overflow panic — the checked
model agrees with the total model — whenever the current `rttvar` and
`smoothed_rtt` and the `latest_rtt` and `ack_delay` inputs are at most
`Duration::MAX / 7`; `new` and the accessors are unconditionally total. -/
theorem c8_update_total_within_bounds (s : RttStats) (l a n : Nat)
    (hc : Bool) (h1 : s.rttvar ≤ DMAX / 7) (h2 : s.smoothed_rtt ≤ DMAX / 7)
    (h3 : l ≤ DMAX / 7) (h4 : a ≤ DMAX / 7) :
    s.update_rtt_checked l a n hc = some (s.update_rtt l a n hc) := by
  have hmin : (s.min_rtt.running_min RTT_WINDOW n l).value ≤ l :=
    value_running_min_le _ _ _ _
  cases hfirst : s.has_first_rtt_sample with
  | false =>
      simp [RttStats.update_rtt_checked, RttStats.update_rtt, hfirst]
  | true =>
      cases hc with
      | false =>
          have hadj :
              (if (s.min_rtt.running_min RTT_WINDOW n l).value + a ≤ l then
                  l - a
                else l) ≤ DMAX / 7 := by
            refine le_trans ?_ h3
            split
            · exact Nat.sub_le _ _
            · exact le_rfl
          obtain ⟨g1, g2, g3, g4, g5⟩ := checked_guards s.rttvar
            s.smoothed_rtt (s.min_rtt.running_min RTT_WINDOW n l).value a
            (if (s.min_rtt.running_min RTT_WINDOW n l).value + a ≤ l then
                l - a
              else l)
            (abs_diff s.smoothed_rtt
              (if (s.min_rtt.running_min RTT_WINDOW n l).value + a ≤ l then
                  l - a
                else l))
            h1 h2 (le_trans hmin h3) h4 hadj
          simp only [RttStats.update_rtt_checked, RttStats.update_rtt,
            hfirst, Bool.not_true, Bool.false_eq_true, if_false, if_true]
          rw [if_neg g1, if_neg g2, if_neg g3, if_neg g4, if_neg g5]
      | true =>
          have heff : min a s.max_ack_delay ≤ DMAX / 7 :=
            le_trans (Nat.min_le_left _ _) h4
          have hadj :
              (if (s.min_rtt.running_min RTT_WINDOW n l).value +
                    min a s.max_ack_delay ≤ l then
                  l - min a s.max_ack_delay
                else l) ≤ DMAX / 7 := by
            refine le_trans ?_ h3
            split
            · exact Nat.sub_le _ _
            · exact le_rfl
          obtain ⟨g1, g2, g3, g4, g5⟩ := checked_guards s.rttvar
            s.smoothed_rtt (s.min_rtt.running_min RTT_WINDOW n l).value
            (min a s.max_ack_delay)
            (if (s.min_rtt.running_min RTT_WINDOW n l).value +
                  min a s.max_ack_delay ≤ l then
                l - min a s.max_ack_delay
              else l)
            (abs_diff s.smoothed_rtt
              (if (s.min_rtt.running_min RTT_WINDOW n l).value +
                    min a s.max_ack_delay ≤ l then
                  l - min a s.max_ack_delay
                else l))
            h1 h2 (le_trans hmin h3) heff hadj
          simp only [RttStats.update_rtt_checked, RttStats.update_rtt,
            hfirst, Bool.not_true, Bool.false_eq_true, if_false, if_true]
          rw [if_neg g1, if_neg g2, if_neg g3, if_neg g4, if_neg g5]

/-- C8 witness: the within-bounds totality theorem applied to `steady120`
with a 100ms sample and a 5ms ack delay. -/
theorem c8_witness :
    (steady120.rttvar ≤ DMAX / 7 ∧ steady120.smoothed_rtt ≤ DMAX / 7 ∧
      (100000000 : Nat) ≤ DMAX / 7 ∧ (5000000 : Nat) ≤ DMAX / 7) ∧
    steady120.update_rtt_checked 100000000 5000000 1000000000 true =
      some (steady120.update_rtt 100000000 5000000 1000000000 true) :=
  ⟨⟨by decide, by decide, by decide, by decide⟩,
    c8_update_total_within_bounds steady120 100000000 5000000 1000000000
      true (by decide) (by decide) (by decide) (by decide)⟩

/-- C8 fails as stated: all-valid-duration inputs can still panic.  A first
sample of `Duration::MAX` (a valid duration) makes `rttvar` equal to
`Duration::MAX / 2`; the very next sample then evaluates `rttvar * 3`,
which overflows `Duration` and panics (the checked model returns `none`),
even though every input of both calls is a valid non-negative duration. -/
theorem c8_counterexample :
    RttStats.update_rtt_checked (RttStats.new 0 0) DMAX 0 0 false =
      some ((RttStats.new 0 0).update_rtt DMAX 0 0 false) ∧
    RttStats.update_rtt_checked ((RttStats.new 0 0).update_rtt DMAX 0 0
        false) 0 0 1 false = none := by
  constructor
  · decide
  · decide
